import Mathlib

/-!
Verification of the galaxy generator in `src/App.vue` (Vue + Three.js).

The component keeps module-level mutable variables `geometry`, `material`,
`points` and `scene`, and a `parameters` record. The function
`generateGalaxy` rebuilds the particle arrays from `parameters` and a
stream of `Math.random()` draws, disposes the previous renderable when one
exists, and installs the new `THREE.Points` object into the scene.

We embed the numeric computation over `ℝ` (one `Math.random()` draw is one
value of a stream `rng : ℕ → ℝ`; particle `i` consumes draws
`4*i, 4*i+1, 4*i+2, 4*i+3` in the order the code calls `Math.random()`),
and the scene/resource bookkeeping as a small state machine where geometry,
material and points objects are identified by numeric ids.
-/

namespace Galaxy

noncomputable section

/-- An RGB color, as in `THREE.Color` (each channel a float). -/
structure Color where
  r : ℝ
  g : ℝ
  b : ℝ

/-- `THREE.Color.lerp`: per-channel `this += (other - this) * alpha`. -/
def Color.lerp (c : Color) (c2 : Color) (alpha : ℝ) : Color :=
  { r := c.r + (c2.r - c.r) * alpha
    g := c.g + (c2.g - c.g) * alpha
    b := c.b + (c2.b - c.b) * alpha }

/-- The `parameters` record of `App.vue`. `insideColor`/`outsideColor`
are kept as already-parsed RGB colors. -/
structure Parameters where
  count : ℕ
  size : ℝ
  radius : ℝ
  branches : ℕ
  spin : ℝ
  randomness : ℝ
  randomnessPower : ℝ
  insideColor : Color
  outsideColor : Color

/-- `const radius = Math.random() * parameters.radius` for particle `i`
(first draw of the particle, stream index `4*i`). -/
def radiusAt (p : Parameters) (rng : ℕ → ℝ) (i : ℕ) : ℝ :=
  rng (4 * i) * p.radius

/-- `const spinAngle = radius * parameters.spin`. -/
def spinAngleAt (p : Parameters) (rng : ℕ → ℝ) (i : ℕ) : ℝ :=
  radiusAt p rng i * p.spin

/-- `const branchAngle = ((i % parameters.branches) / parameters.branches) * Math.PI * 2`. -/
def branchAngleAt (p : Parameters) (i : ℕ) : ℝ :=
  (((i % p.branches : ℕ) : ℝ) / (p.branches : ℝ)) * Real.pi * 2

/-- `const randomX = (Math.random() - 0.5) * parameters.randomness * radius`
(second draw of particle `i`). -/
def randomXAt (p : Parameters) (rng : ℕ → ℝ) (i : ℕ) : ℝ :=
  (rng (4 * i + 1) - 0.5) * p.randomness * radiusAt p rng i

/-- `const randomY = (Math.random() - 0.5) * parameters.randomness * radius`
(third draw of particle `i`). -/
def randomYAt (p : Parameters) (rng : ℕ → ℝ) (i : ℕ) : ℝ :=
  (rng (4 * i + 2) - 0.5) * p.randomness * radiusAt p rng i

/-- `const randomZ = (Math.random() - 0.5) * parameters.randomness * radius`
(fourth draw of particle `i`). -/
def randomZAt (p : Parameters) (rng : ℕ → ℝ) (i : ℕ) : ℝ :=
  (rng (4 * i + 3) - 0.5) * p.randomness * radiusAt p rng i

/-- The three slots `positions[i3]`, `positions[i3+1]`, `positions[i3+2]`
written for particle `i`:
`cos(branchAngle + spinAngle) * radius + randomX`, `randomY`,
`sin(branchAngle + spinAngle) * radius + randomZ`. -/
def positionTriple (p : Parameters) (rng : ℕ → ℝ) (i : ℕ) : List ℝ :=
  [Real.cos (branchAngleAt p i + spinAngleAt p rng i) * radiusAt p rng i + randomXAt p rng i,
   randomYAt p rng i,
   Real.sin (branchAngleAt p i + spinAngleAt p rng i) * radiusAt p rng i + randomZAt p rng i]

/-- `const mixedColor = colorInside.clone(); mixedColor.lerp(colorOutside, radius / parameters.radius)`. -/
def mixedColorAt (p : Parameters) (rng : ℕ → ℝ) (i : ℕ) : Color :=
  p.insideColor.lerp p.outsideColor (radiusAt p rng i / p.radius)

/-- The three slots `colors[i3]`, `colors[i3+1]`, `colors[i3+2]` written
for particle `i`: the mixed color's `r`, `g`, `b` channels. -/
def colorTriple (p : Parameters) (rng : ℕ → ℝ) (i : ℕ) : List ℝ :=
  [(mixedColorAt p rng i).r, (mixedColorAt p rng i).g, (mixedColorAt p rng i).b]

/-- The `positions` array after the first `n` iterations of the particle
loop (each iteration appends its three slots in order). -/
def buildPositions (p : Parameters) (rng : ℕ → ℝ) (n : ℕ) : List ℝ :=
  match n with
  | 0 => []
  | n + 1 => buildPositions p rng n ++ positionTriple p rng n

/-- The `colors` array after the first `n` iterations of the particle loop. -/
def buildColors (p : Parameters) (rng : ℕ → ℝ) (n : ℕ) : List ℝ :=
  match n with
  | 0 => []
  | n + 1 => buildColors p rng n ++ colorTriple p rng n

/-- The full `positions` array produced by `generateGalaxy`. -/
def positionsOf (p : Parameters) (rng : ℕ → ℝ) : List ℝ :=
  buildPositions p rng p.count

/-- The full `colors` array produced by `generateGalaxy`. -/
def colorsOf (p : Parameters) (rng : ℕ → ℝ) : List ℝ :=
  buildColors p rng p.count

theorem length_buildPositions (p : Parameters) (rng : ℕ → ℝ) (n : ℕ) :
    (buildPositions p rng n).length = n * 3 := by
  induction n with
  | zero => rfl
  | succ n ih => simp [buildPositions, positionTriple, ih, Nat.succ_mul]

theorem length_buildColors (p : Parameters) (rng : ℕ → ℝ) (n : ℕ) :
    (buildColors p rng n).length = n * 3 := by
  induction n with
  | zero => rfl
  | succ n ih => simp [buildColors, colorTriple, ih, Nat.succ_mul]

theorem get?_buildPositions (p : Parameters) (rng : ℕ → ℝ) {i n : ℕ} (hin : i < n)
    {r : ℕ} (hr : r < 3) :
    (buildPositions p rng n).get? (3 * i + r) = (positionTriple p rng i).get? r := by
  induction n with
  | zero => omega
  | succ n ih =>
    rcases Nat.lt_succ_iff_lt_or_eq.mp hin with hlt | rfl
    · rw [buildPositions, List.get?_append]
      · exact ih hlt
      · rw [length_buildPositions]; omega
    · rw [buildPositions, List.get?_append_right]
      · rw [length_buildPositions]
        congr 1
        omega
      · rw [length_buildPositions]; omega

theorem get?_buildColors (p : Parameters) (rng : ℕ → ℝ) {i n : ℕ} (hin : i < n)
    {r : ℕ} (hr : r < 3) :
    (buildColors p rng n).get? (3 * i + r) = (colorTriple p rng i).get? r := by
  induction n with
  | zero => omega
  | succ n ih =>
    rcases Nat.lt_succ_iff_lt_or_eq.mp hin with hlt | rfl
    · rw [buildColors, List.get?_append]
      · exact ih hlt
      · rw [length_buildColors]; omega
    · rw [buildColors, List.get?_append_right]
      · rw [length_buildColors]
        congr 1
        omega
      · rw [length_buildColors]; omega

/-- The component's mutable module state: the nullable `geometry`,
`material` and `points` variables (objects identified by numeric ids), the
nullable `scene` (its list of children that are points objects), the set of
ids on which `dispose()` has been called, and a fresh-id counter for
`new THREE.BufferGeometry()` / `new THREE.PointsMaterial(...)` /
`new THREE.Points(...)` allocations. -/
structure AppState where
  geometry : Option ℕ
  material : Option ℕ
  points : Option ℕ
  scene : Option (List ℕ)
  disposed : List ℕ
  nextId : ℕ

/-- The `generateGalaxy` function of `App.vue` as a state transition.

* `if (!scene) return;` — when `scene` is `null` the state is returned
  unchanged and no arrays are produced.
* `if (points !== null) { geometry?.dispose(); material?.dispose();
  scene.remove(points); }` — when a previous renderable exists, its
  geometry and material ids are recorded as disposed and the points id is
  removed from the scene children.
* Fresh geometry, material and points objects are allocated, the particle
  arrays are generated, and the new points object is added to the scene. -/
def generateGalaxy (p : Parameters) (rng : ℕ → ℝ) (s : AppState) :
    AppState × Option (List ℝ × List ℝ) :=
  match s.scene with
  | none => (s, none)
  | some children =>
    let disposed1 :=
      match s.points with
      | some _ => s.disposed ++ s.geometry.toList ++ s.material.toList
      | none => s.disposed
    let children1 :=
      match s.points with
      | some pid => children.erase pid
      | none => children
    ({ geometry := some s.nextId
       material := some (s.nextId + 1)
       points := some (s.nextId + 2)
       scene := some (children1 ++ [s.nextId + 2])
       disposed := disposed1
       nextId := s.nextId + 3 },
     some (buildPositions p rng p.count, buildColors p rng p.count))

/-! ### Concrete fixtures -/

/-- The `parameters` record as initialised in `App.vue`
(`#ff5334 = (255, 83, 52)`, `#05335c = (5, 51, 92)`, channels scaled to
`[0,1]` as in `THREE.Color`). -/
def defaultParameters : Parameters :=
  { count := 100000
    size := 0.001
    radius := 10
    branches := 3
    spin := 1
    randomness := 0.3
    randomnessPower := 3
    insideColor := ⟨255 / 255, 83 / 255, 52 / 255⟩
    outsideColor := ⟨5 / 255, 51 / 255, 92 / 255⟩ }

/-- The default parameters with `count := 9` (the C4 scenario). -/
def pNine : Parameters :=
  { defaultParameters with count := 9 }

/-- A deterministic random source: every draw returns `0.5`. -/
def rngHalf : ℕ → ℝ := fun _ => 1 / 2

/-- A second deterministic random source, pointwise equal to `rngHalf`
but syntactically distinct. -/
def rngHalfB : ℕ → ℝ := fun _ => 2 / 4

/-- The module state right after `onMounted` creates the scene: a fresh
empty scene, no renderable yet. -/
def stInit : AppState :=
  { geometry := none, material := none, points := none
    scene := some [], disposed := [], nextId := 0 }

/-- The module state before `onMounted` runs: no scene exists. -/
def stNoScene : AppState :=
  { geometry := none, material := none, points := none
    scene := none, disposed := [], nextId := 0 }

/-! ### Claims -/

/-- C3: for every `params` with `count > 0`, generation produces a
`positions` array and a `colors` array both of length exactly
`count * 3`, with every slot initialised. -/
theorem generate_array_lengths (p : Parameters) (rng : ℕ → ℝ) (h : 0 < p.count) :
    (positionsOf p rng).length = p.count * 3 ∧
    (colorsOf p rng).length = p.count * 3 ∧
    ∀ k, k < p.count * 3 →
      ((positionsOf p rng).get? k).isSome ∧ ((colorsOf p rng).get? k).isSome := by
  refine ⟨length_buildPositions p rng p.count, length_buildColors p rng p.count, ?_⟩
  intro k hk
  constructor
  · rw [List.get?_eq_getElem?,
      List.getElem?_eq_getElem (by simp only [positionsOf, length_buildPositions]; omega)]
    rfl
  · rw [List.get?_eq_getElem?,
      List.getElem?_eq_getElem (by simp only [colorsOf, length_buildColors]; omega)]
    rfl

/-- C3 witness: at the default parameters (`count = 100000`). -/
theorem generate_array_lengths_witness :
    (positionsOf defaultParameters rngHalf).length = defaultParameters.count * 3 ∧
    (colorsOf defaultParameters rngHalf).length = defaultParameters.count * 3 ∧
    ∀ k, k < defaultParameters.count * 3 →
      ((positionsOf defaultParameters rngHalf).get? k).isSome ∧
      ((colorsOf defaultParameters rngHalf).get? k).isSome :=
  generate_array_lengths defaultParameters rngHalf (by norm_num [defaultParameters])

/-- C4: `branchAngle = (i mod branches) / branches * 2π`, independent of
any random draw (the definition takes no random source); for
`branches = 3`, `count = 9`, particles 0, 3, 6 get angle `0`, particles
1, 4, 7 get `2π/3`, and particles 2, 5, 8 get `4π/3`. -/
theorem branchAngle_round_robin (p : Parameters) (i : ℕ) :
    branchAngleAt p i = (((i % p.branches : ℕ) : ℝ) / (p.branches : ℝ)) * (2 * Real.pi) ∧
    branchAngleAt pNine 0 = 0 ∧
    branchAngleAt pNine 3 = 0 ∧
    branchAngleAt pNine 6 = 0 ∧
    branchAngleAt pNine 1 = 2 * Real.pi / 3 ∧
    branchAngleAt pNine 4 = 2 * Real.pi / 3 ∧
    branchAngleAt pNine 7 = 2 * Real.pi / 3 ∧
    branchAngleAt pNine 2 = 4 * Real.pi / 3 ∧
    branchAngleAt pNine 5 = 4 * Real.pi / 3 ∧
    branchAngleAt pNine 8 = 4 * Real.pi / 3 := by
  refine ⟨by unfold branchAngleAt; ring, ?_, ?_, ?_, ?_, ?_, ?_, ?_, ?_, ?_⟩ <;>
    · simp only [branchAngleAt, pNine, defaultParameters]
      norm_num
      try ring

/-- C5: for every particle `i`, with `radius_i = rng(4i) * params.radius`
and `spinAngle = radius_i * spin`, the stored slots are
`x = cos(branchAngle + spinAngle) * radius_i + jitter_x`, `y = jitter_y`
(no baseline vertical displacement), and
`z = sin(branchAngle + spinAngle) * radius_i + jitter_z`, each jitter
being `(draw - 0.5) * randomness * radius_i`. -/
theorem position_slots (p : Parameters) (rng : ℕ → ℝ) (i : ℕ) (h : i < p.count) :
    (positionsOf p rng).get? (3 * i) =
      some (Real.cos (branchAngleAt p i + rng (4 * i) * p.radius * p.spin) *
          (rng (4 * i) * p.radius)
        + (rng (4 * i + 1) - 0.5) * p.randomness * (rng (4 * i) * p.radius)) ∧
    (positionsOf p rng).get? (3 * i + 1) =
      some ((rng (4 * i + 2) - 0.5) * p.randomness * (rng (4 * i) * p.radius)) ∧
    (positionsOf p rng).get? (3 * i + 2) =
      some (Real.sin (branchAngleAt p i + rng (4 * i) * p.radius * p.spin) *
          (rng (4 * i) * p.radius)
        + (rng (4 * i + 3) - 0.5) * p.randomness * (rng (4 * i) * p.radius)) := by
  refine ⟨?_, ?_, ?_⟩
  · have h0 := get?_buildPositions p rng h (r := 0) (by norm_num)
    rw [Nat.add_zero] at h0
    rw [positionsOf, h0]
    simp [positionTriple, radiusAt, spinAngleAt, randomXAt]
  · have h1 := get?_buildPositions p rng h (r := 1) (by norm_num)
    rw [positionsOf, h1]
    simp [positionTriple, radiusAt, randomYAt]
  · have h2 := get?_buildPositions p rng h (r := 2) (by norm_num)
    rw [positionsOf, h2]
    simp [positionTriple, radiusAt, spinAngleAt, randomZAt]

/-- C5 witness: particle 0 at the default parameters with the constant
`0.5` source. -/
theorem position_slots_witness :
    (positionsOf defaultParameters rngHalf).get? (3 * 0) =
      some (Real.cos (branchAngleAt defaultParameters 0 +
            rngHalf (4 * 0) * defaultParameters.radius * defaultParameters.spin) *
          (rngHalf (4 * 0) * defaultParameters.radius)
        + (rngHalf (4 * 0 + 1) - 0.5) * defaultParameters.randomness *
          (rngHalf (4 * 0) * defaultParameters.radius)) ∧
    (positionsOf defaultParameters rngHalf).get? (3 * 0 + 1) =
      some ((rngHalf (4 * 0 + 2) - 0.5) * defaultParameters.randomness *
        (rngHalf (4 * 0) * defaultParameters.radius)) ∧
    (positionsOf defaultParameters rngHalf).get? (3 * 0 + 2) =
      some (Real.sin (branchAngleAt defaultParameters 0 +
            rngHalf (4 * 0) * defaultParameters.radius * defaultParameters.spin) *
          (rngHalf (4 * 0) * defaultParameters.radius)
        + (rngHalf (4 * 0 + 3) - 0.5) * defaultParameters.randomness *
          (rngHalf (4 * 0) * defaultParameters.radius)) :=
  position_slots defaultParameters rngHalf 0 (by norm_num [defaultParameters])

/-- C6: each particle's color is the per-channel linear interpolation
`inside + (outside - inside) * t` with `t = radius_i / params.radius`; a
particle with `radius_i = 0` gets exactly `insideColor` and one with
`radius_i = params.radius` gets exactly `outsideColor`. -/
theorem color_lerp_slots (p : Parameters) (rng : ℕ → ℝ) (i : ℕ) (h : i < p.count)
    (hrad : p.radius ≠ 0) :
    ((colorsOf p rng).get? (3 * i) =
      some (p.insideColor.r + (p.outsideColor.r - p.insideColor.r) *
        (radiusAt p rng i / p.radius)) ∧
     (colorsOf p rng).get? (3 * i + 1) =
      some (p.insideColor.g + (p.outsideColor.g - p.insideColor.g) *
        (radiusAt p rng i / p.radius)) ∧
     (colorsOf p rng).get? (3 * i + 2) =
      some (p.insideColor.b + (p.outsideColor.b - p.insideColor.b) *
        (radiusAt p rng i / p.radius))) ∧
    (radiusAt p rng i = 0 → mixedColorAt p rng i = p.insideColor) ∧
    (radiusAt p rng i = p.radius → mixedColorAt p rng i = p.outsideColor) := by
  refine ⟨⟨?_, ?_, ?_⟩, ?_, ?_⟩
  · have h0 := get?_buildColors p rng h (r := 0) (by norm_num)
    rw [Nat.add_zero] at h0
    rw [colorsOf, h0]
    simp [colorTriple, mixedColorAt, Color.lerp]
  · have h1 := get?_buildColors p rng h (r := 1) (by norm_num)
    rw [colorsOf, h1]
    simp [colorTriple, mixedColorAt, Color.lerp]
  · have h2 := get?_buildColors p rng h (r := 2) (by norm_num)
    rw [colorsOf, h2]
    simp [colorTriple, mixedColorAt, Color.lerp]
  · intro h0
    simp only [mixedColorAt, Color.lerp, h0, zero_div, mul_zero, add_zero]
  · intro hfull
    simp only [mixedColorAt, Color.lerp, hfull, div_self hrad, mul_one]
    cases p.outsideColor
    simp only [Color.mk.injEq]
    refine ⟨by ring, by ring, by ring⟩

/-- C6 witness: particle 0 at the default parameters with the constant
`0.5` source. -/
theorem color_lerp_slots_witness :
    ((colorsOf defaultParameters rngHalf).get? (3 * 0) =
      some (defaultParameters.insideColor.r +
        (defaultParameters.outsideColor.r - defaultParameters.insideColor.r) *
        (radiusAt defaultParameters rngHalf 0 / defaultParameters.radius)) ∧
     (colorsOf defaultParameters rngHalf).get? (3 * 0 + 1) =
      some (defaultParameters.insideColor.g +
        (defaultParameters.outsideColor.g - defaultParameters.insideColor.g) *
        (radiusAt defaultParameters rngHalf 0 / defaultParameters.radius)) ∧
     (colorsOf defaultParameters rngHalf).get? (3 * 0 + 2) =
      some (defaultParameters.insideColor.b +
        (defaultParameters.outsideColor.b - defaultParameters.insideColor.b) *
        (radiusAt defaultParameters rngHalf 0 / defaultParameters.radius))) ∧
    (radiusAt defaultParameters rngHalf 0 = 0 →
      mixedColorAt defaultParameters rngHalf 0 = defaultParameters.insideColor) ∧
    (radiusAt defaultParameters rngHalf 0 = defaultParameters.radius →
      mixedColorAt defaultParameters rngHalf 0 = defaultParameters.outsideColor) :=
  color_lerp_slots defaultParameters rngHalf 0 (by norm_num [defaultParameters])
    (by norm_num [defaultParameters])

/-- C7: generation is deterministic with respect to the random source: two
calls with identical parameters, identical state and pointwise-identical
random sequences produce identical results (arrays included). -/
theorem generate_deterministic (p : Parameters) (r1 r2 : ℕ → ℝ) (s : AppState)
    (h : ∀ n, r1 n = r2 n) :
    generateGalaxy p r1 s = generateGalaxy p r2 s := by
  have hr : r1 = r2 := funext h
  rw [hr]

/-- C7 witness: two syntactically distinct sources with the same values. -/
theorem generate_deterministic_witness :
    generateGalaxy defaultParameters rngHalf stInit =
      generateGalaxy defaultParameters rngHalfB stInit :=
  generate_deterministic defaultParameters rngHalf rngHalfB stInit
    (fun _ => by norm_num [rngHalf, rngHalfB])

/-- The default parameters with `count := 0`. -/
def pZeroCount : Parameters :=
  { defaultParameters with count := 0 }

/-- A state with an active renderable: geometry id 0, material id 1,
points id 2 in the scene, next fresh id 3. -/
def stActive : AppState :=
  { geometry := some 0, material := some 1, points := some 2
    scene := some [2], disposed := [], nextId := 3 }

theorem buildPositions_randomnessPower (p : Parameters) (rng : ℕ → ℝ) (a : ℝ) (n : ℕ) :
    buildPositions { p with randomnessPower := a } rng n = buildPositions p rng n := by
  induction n with
  | zero => rfl
  | succ n ih =>
    simp only [buildPositions, ih]
    rfl

theorem buildColors_randomnessPower (p : Parameters) (rng : ℕ → ℝ) (a : ℝ) (n : ℕ) :
    buildColors { p with randomnessPower := a } rng n = buildColors p rng n := by
  induction n with
  | zero => rfl
  | succ n ih =>
    simp only [buildColors, ih]
    rfl

/-- C1: the generated output is completely independent of
`params.randomnessPower` — the jitter is `(draw - 0.5) * randomness *
radius_i` with no power shaping, even though the parameter exists and its
GUI control triggers regeneration. -/
theorem randomnessPower_unused (p : Parameters) (rng : ℕ → ℝ) (s : AppState) (a b : ℝ) :
    generateGalaxy { p with randomnessPower := a } rng s =
      generateGalaxy { p with randomnessPower := b } rng s := by
  cases hsc : s.scene with
  | none => simp [generateGalaxy, hsc]
  | some children =>
    simp [generateGalaxy, hsc, buildPositions_randomnessPower, buildColors_randomnessPower]

/-- C2 counterexample: with `count = 0` and an active renderable,
`generateGalaxy` does not fail and does not leave the state unchanged: it
disposes geometry 0 and material 1, removes points 2 from the scene, and
installs a fresh empty renderable. -/
theorem regenerate_zero_count_no_failure :
    generateGalaxy pZeroCount rngHalf stActive =
      ({ geometry := some 3, material := some 4, points := some 5
         scene := some [5], disposed := [0, 1], nextId := 6 }, some ([], [])) ∧
    (generateGalaxy pZeroCount rngHalf stActive).1 ≠ stActive := by
  have hgen : generateGalaxy pZeroCount rngHalf stActive =
      ({ geometry := some 3, material := some 4, points := some 5
         scene := some [5], disposed := [0, 1], nextId := 6 }, some ([], [])) := rfl
  refine ⟨hgen, ?_⟩
  rw [hgen]
  intro hEq
  have hpts := congrArg AppState.points hEq
  simp [stActive] at hpts

/-- C2 amended: `generateGalaxy` performs no parameter validation; with
`count = 0` and an active renderable it runs to completion, disposing the
previous geometry and material, removing the previous points object from
the scene, and installing a new renderable with empty arrays — raising no
error and making no unchanged-state guarantee. -/
theorem regenerate_no_validation (p : Parameters) (rng : ℕ → ℝ) (s : AppState)
    (cs : List ℕ) (pid : ℕ) (hc : p.count = 0)
    (hsc : s.scene = some cs) (hpts : s.points = some pid) :
    generateGalaxy p rng s =
      ({ geometry := some s.nextId
         material := some (s.nextId + 1)
         points := some (s.nextId + 2)
         scene := some (cs.erase pid ++ [s.nextId + 2])
         disposed := s.disposed ++ s.geometry.toList ++ s.material.toList
         nextId := s.nextId + 3 }, some ([], [])) := by
  simp only [generateGalaxy, hsc, hpts, hc]
  rfl

/-- C2 amended witness: the concrete active state with `count = 0`. -/
theorem regenerate_no_validation_witness :
    generateGalaxy pZeroCount rngHalf stActive =
      ({ geometry := some 3, material := some 4, points := some 5
         scene := some [5], disposed := [0, 1], nextId := 6 }, some ([], [])) :=
  regenerate_no_validation pZeroCount rngHalf stActive [2] 2 rfl rfl rfl

/-- C10: when no scene exists, `generateGalaxy` returns immediately: the
state is unchanged, nothing is disposed, nothing is allocated, and no
arrays are produced. -/
theorem no_scene_noop (p : Parameters) (rng : ℕ → ℝ) (s : AppState)
    (h : s.scene = none) :
    generateGalaxy p rng s = (s, none) := by
  unfold generateGalaxy
  rw [h]

/-- C10 witness: the pre-mount state. -/
theorem no_scene_noop_witness :
    generateGalaxy defaultParameters rngHalf stNoScene = (stNoScene, none) :=
  no_scene_noop defaultParameters rngHalf stNoScene rfl

/-- C8: calling `generateGalaxy` twice starting from a fresh scene leaves
exactly one points object in the scene — the second one — with the first
call's geometry and material disposed and the first points object no
longer in the scene graph. -/
theorem regenerate_twice_single_renderable (p1 p2 : Parameters) (r1 r2 : ℕ → ℝ)
    (s : AppState) (hsc : s.scene = some []) (hpts : s.points = none) :
    (generateGalaxy p1 r1 s).1.geometry = some s.nextId ∧
    (generateGalaxy p1 r1 s).1.material = some (s.nextId + 1) ∧
    (generateGalaxy p1 r1 s).1.points = some (s.nextId + 2) ∧
    (generateGalaxy p2 r2 (generateGalaxy p1 r1 s).1).1.scene = some [s.nextId + 5] ∧
    (generateGalaxy p2 r2 (generateGalaxy p1 r1 s).1).1.points = some (s.nextId + 5) ∧
    (generateGalaxy p2 r2 (generateGalaxy p1 r1 s).1).1.disposed =
      s.disposed ++ [s.nextId, s.nextId + 1] ∧
    s.nextId + 2 ∉ ((generateGalaxy p2 r2 (generateGalaxy p1 r1 s).1).1.scene.getD []) := by
  have hs1 : (generateGalaxy p1 r1 s).1 =
      { geometry := some s.nextId
        material := some (s.nextId + 1)
        points := some (s.nextId + 2)
        scene := some [s.nextId + 2]
        disposed := s.disposed
        nextId := s.nextId + 3 } := by
    simp [generateGalaxy, hsc, hpts]
  rw [hs1]
  have hs2 : (generateGalaxy p2 r2
      ({ geometry := some s.nextId
         material := some (s.nextId + 1)
         points := some (s.nextId + 2)
         scene := some [s.nextId + 2]
         disposed := s.disposed
         nextId := s.nextId + 3 } : AppState)).1 =
      { geometry := some (s.nextId + 3)
        material := some (s.nextId + 4)
        points := some (s.nextId + 5)
        scene := some [s.nextId + 5]
        disposed := s.disposed ++ [s.nextId, s.nextId + 1]
        nextId := s.nextId + 6 } := by
    simp [generateGalaxy, List.erase_cons_head]
  rw [hs2]
  refine ⟨rfl, rfl, rfl, rfl, rfl, rfl, ?_⟩
  simp

/-- C8 witness: starting from the freshly mounted state. -/
theorem regenerate_twice_single_renderable_witness :
    (generateGalaxy defaultParameters rngHalf stInit).1.geometry = some stInit.nextId ∧
    (generateGalaxy defaultParameters rngHalf stInit).1.material = some (stInit.nextId + 1) ∧
    (generateGalaxy defaultParameters rngHalf stInit).1.points = some (stInit.nextId + 2) ∧
    (generateGalaxy defaultParameters rngHalfB
      (generateGalaxy defaultParameters rngHalf stInit).1).1.scene =
      some [stInit.nextId + 5] ∧
    (generateGalaxy defaultParameters rngHalfB
      (generateGalaxy defaultParameters rngHalf stInit).1).1.points =
      some (stInit.nextId + 5) ∧
    (generateGalaxy defaultParameters rngHalfB
      (generateGalaxy defaultParameters rngHalf stInit).1).1.disposed =
      stInit.disposed ++ [stInit.nextId, stInit.nextId + 1] ∧
    stInit.nextId + 2 ∉ ((generateGalaxy defaultParameters rngHalfB
      (generateGalaxy defaultParameters rngHalf stInit).1).1.scene.getD []) :=
  regenerate_twice_single_renderable defaultParameters defaultParameters
    rngHalf rngHalfB stInit rfl rfl

/-- The C9 scenario parameters: `count = 4`, `branches = 2`,
`radius = 10`, `spin = 0`, `randomness = 0` (other fields as default). -/
def pFour : Parameters :=
  { defaultParameters with count := 4, branches := 2, spin := 0, randomness := 0 }

/-- C9: with `count = 4`, `branches = 2`, `radius = 10`, `spin = 0`,
`randomness = 0` and every draw `0.5`: particles 0 and 2 get branch angle
`0`, particles 1 and 3 get `π`; every particle has `radius_i = 5` and zero
jitter; the four positions are exactly `(5,0,0)`, `(-5,0,0)`, `(5,0,0)`,
`(-5,0,0)` — on the circle of radius 5 in the `y = 0` plane at angles `0`
and `π`. -/
theorem four_particle_scenario :
    branchAngleAt pFour 0 = 0 ∧
    branchAngleAt pFour 2 = 0 ∧
    branchAngleAt pFour 1 = Real.pi ∧
    branchAngleAt pFour 3 = Real.pi ∧
    radiusAt pFour rngHalf 0 = 5 ∧
    radiusAt pFour rngHalf 1 = 5 ∧
    radiusAt pFour rngHalf 2 = 5 ∧
    radiusAt pFour rngHalf 3 = 5 ∧
    randomXAt pFour rngHalf 0 = 0 ∧
    randomYAt pFour rngHalf 0 = 0 ∧
    randomZAt pFour rngHalf 0 = 0 ∧
    randomXAt pFour rngHalf 1 = 0 ∧
    randomYAt pFour rngHalf 1 = 0 ∧
    randomZAt pFour rngHalf 1 = 0 ∧
    randomXAt pFour rngHalf 2 = 0 ∧
    randomYAt pFour rngHalf 2 = 0 ∧
    randomZAt pFour rngHalf 2 = 0 ∧
    randomXAt pFour rngHalf 3 = 0 ∧
    randomYAt pFour rngHalf 3 = 0 ∧
    randomZAt pFour rngHalf 3 = 0 ∧
    positionsOf pFour rngHalf = [5, 0, 0, -5, 0, 0, 5, 0, 0, -5, 0, 0] := by
  have hb0 : branchAngleAt pFour 0 = 0 := by
    simp [branchAngleAt, pFour, defaultParameters]
  have hb2 : branchAngleAt pFour 2 = 0 := by
    simp [branchAngleAt, pFour, defaultParameters]
  have hb1 : branchAngleAt pFour 1 = Real.pi := by
    simp only [branchAngleAt, pFour, defaultParameters]
    norm_num
    ring
  have hb3 : branchAngleAt pFour 3 = Real.pi := by
    simp only [branchAngleAt, pFour, defaultParameters]
    norm_num
    ring
  have hrad : ∀ i : ℕ, radiusAt pFour rngHalf i = 5 := by
    intro i
    norm_num [radiusAt, pFour, defaultParameters, rngHalf]
  have hjx : ∀ i : ℕ, randomXAt pFour rngHalf i = 0 := by
    intro i
    norm_num [randomXAt, radiusAt, pFour, defaultParameters, rngHalf]
  have hjy : ∀ i : ℕ, randomYAt pFour rngHalf i = 0 := by
    intro i
    norm_num [randomYAt, radiusAt, pFour, defaultParameters, rngHalf]
  have hjz : ∀ i : ℕ, randomZAt pFour rngHalf i = 0 := by
    intro i
    norm_num [randomZAt, radiusAt, pFour, defaultParameters, rngHalf]
  have hspin : ∀ i : ℕ, spinAngleAt pFour rngHalf i = 0 := by
    intro i
    norm_num [spinAngleAt, radiusAt, pFour, defaultParameters, rngHalf]
  have t0 : positionTriple pFour rngHalf 0 = [5, 0, 0] := by
    rw [positionTriple, hb0, hspin, hrad, hjx, hjy, hjz]
    norm_num
  have t1 : positionTriple pFour rngHalf 1 = [-5, 0, 0] := by
    rw [positionTriple, hb1, hspin, hrad, hjx, hjy, hjz]
    norm_num [Real.cos_pi, Real.sin_pi]
  have t2 : positionTriple pFour rngHalf 2 = [5, 0, 0] := by
    rw [positionTriple, hb2, hspin, hrad, hjx, hjy, hjz]
    norm_num
  have t3 : positionTriple pFour rngHalf 3 = [-5, 0, 0] := by
    rw [positionTriple, hb3, hspin, hrad, hjx, hjy, hjz]
    norm_num [Real.cos_pi, Real.sin_pi]
  have e4 : positionsOf pFour rngHalf =
      positionTriple pFour rngHalf 0 ++ positionTriple pFour rngHalf 1 ++
        positionTriple pFour rngHalf 2 ++ positionTriple pFour rngHalf 3 := rfl
  have hlist : positionsOf pFour rngHalf = [5, 0, 0, -5, 0, 0, 5, 0, 0, -5, 0, 0] := by
    rw [e4, t0, t1, t2, t3]
    rfl
  exact ⟨hb0, hb2, hb1, hb3, hrad 0, hrad 1, hrad 2, hrad 3,
    hjx 0, hjy 0, hjz 0, hjx 1, hjy 1, hjz 1,
    hjx 2, hjy 2, hjz 2, hjx 3, hjy 3, hjz 3, hlist⟩

end

end Galaxy
